import Mathlib

set_option maxHeartbeats 1000000

/- Shallow embedding of the wdq repository (src/src/wdq: models.py and the
   package entry points in the package root module).  Python dicts are embedded
   as association lists in insertion order, Python sets of strings as
   Finset String, and raised exceptions as Except. -/

/-- The exceptions the code can raise: KeyError (the spec calls it NotFound),
ValueError from decoding a closed enumeration or a missing required field
(MalformedData), a failure of the HTTP transport, and ImportError. -/
inductive WdqError where
  | notFound
  | malformedData
  | transportError
  | importError
  deriving DecidableEq, Repr

/-- Raw JSON of a statement value: a dict with a "type" tag and a "content"
payload.  The content is passed through untouched by the code, so its JSON
shape is left as a type parameter. -/
structure RawValue (α : Type) where
  vtype : String
  content : α
  deriving DecidableEq

/-- models.py WikidataPropertyReference: a dataclass with fields id and
data_type. -/
structure WikidataPropertyReference where
  id : String
  data_type : String
  deriving DecidableEq

/-- The value classes of models.py (WikidataSomeValue, WikidataNoValue,
WikidataItemValue, WikidataExternalIdentifierValue, WikidataValue) as a tagged
union.  Each constructor stores exactly what the corresponding Python
constructor stores: the raw value dict, the type-tag string, and for the
external-identifier class additionally the property reference. -/
inductive BaseWikidataValue (α : Type) where
  | someValue (raw : RawValue α) (type : String)
  | noValue (raw : RawValue α) (type : String)
  | itemValue (raw : RawValue α) (type : String)
  | externalIdentifierValue (raw : RawValue α) (prop : WikidataPropertyReference) (type : String)
  | value (raw : RawValue α) (type : String)
  deriving DecidableEq

/-- BaseWikidataValue.raw_content: returns self._raw["content"]. -/
def BaseWikidataValue.raw_content : BaseWikidataValue α → α
  | .someValue r _ => r.content
  | .noValue r _ => r.content
  | .itemValue r _ => r.content
  | .externalIdentifierValue r _ _ => r.content
  | .value r _ => r.content

/-- The id property of WikidataItemValue and WikidataExternalIdentifierValue
(both return self._raw["content"]); none on the variants whose Python class
has no id property. -/
def BaseWikidataValue.valueId? : BaseWikidataValue α → Option α
  | .itemValue r _ => some r.content
  | .externalIdentifierValue r _ _ => some r.content
  | _ => none

/-- The property accessor of WikidataExternalIdentifierValue (returns the
stored property reference); none elsewhere. -/
def BaseWikidataValue.valueProperty? : BaseWikidataValue α → Option WikidataPropertyReference
  | .externalIdentifierValue _ p _ => some p
  | _ => none

/-- models.py _resolve_wikidata_value: dispatch on the raw value's type tag
first, then on the property's data type. -/
def _resolve_wikidata_value (prop : WikidataPropertyReference) (value : RawValue α) :
    BaseWikidataValue α :=
  if value.vtype = "somevalue" then .someValue value "somevalue"
  else if value.vtype = "novalue" then .noValue value "novalue"
  else if prop.data_type = "wikibase-item" then .itemValue value "wikibase-item"
  else if prop.data_type = "external-id" then .externalIdentifierValue value prop "external-id"
  else .value value prop.data_type

/-- C1: the value resolver is a pure function of (property reference, raw
value); a "somevalue" tag wins, then a "novalue" tag, and only past those the
datatype checks fire: "wikibase-item" gives an item value whose id is the raw
content, "external-id" gives an external identifier carrying the content and
the property reference, anything else gives a generic value carrying the
content and the property's datatype. -/
theorem resolve_wikidata_value_dispatch {α : Type} (p : WikidataPropertyReference)
    (v : RawValue α) :
    (v.vtype = "somevalue" → _resolve_wikidata_value p v = .someValue v "somevalue")
    ∧ (v.vtype = "novalue" → _resolve_wikidata_value p v = .noValue v "novalue")
    ∧ (v.vtype ≠ "somevalue" → v.vtype ≠ "novalue" → p.data_type = "wikibase-item" →
        _resolve_wikidata_value p v = .itemValue v "wikibase-item"
        ∧ (_resolve_wikidata_value p v).valueId? = some v.content)
    ∧ (v.vtype ≠ "somevalue" → v.vtype ≠ "novalue" → p.data_type ≠ "wikibase-item" →
        p.data_type = "external-id" →
        _resolve_wikidata_value p v = .externalIdentifierValue v p "external-id"
        ∧ (_resolve_wikidata_value p v).valueId? = some v.content
        ∧ (_resolve_wikidata_value p v).valueProperty? = some p)
    ∧ (v.vtype ≠ "somevalue" → v.vtype ≠ "novalue" → p.data_type ≠ "wikibase-item" →
        p.data_type ≠ "external-id" →
        _resolve_wikidata_value p v = .value v p.data_type
        ∧ (_resolve_wikidata_value p v).raw_content = v.content) := by
  unfold _resolve_wikidata_value
  refine ⟨?_, ?_, ?_, ?_, ?_⟩ <;> intros <;>
    simp_all [BaseWikidataValue.valueId?, BaseWikidataValue.valueProperty?,
      BaseWikidataValue.raw_content]

/-- C1 witness: the spec's own example, resolve on datatype "wikibase-item"
and raw value {type:"value", content:"Q5"} yields the item value Q5. -/
theorem resolve_wikidata_value_dispatch_witness :
    _resolve_wikidata_value ⟨"P31", "wikibase-item"⟩ (⟨"value", "Q5"⟩ : RawValue String)
      = .itemValue ⟨"value", "Q5"⟩ "wikibase-item" :=
  ((resolve_wikidata_value_dispatch ⟨"P31", "wikibase-item"⟩ ⟨"value", "Q5"⟩).2.2.1
    (by decide) (by decide) rfl).1

/-- models.py _BaseWikidataLD (shared by WikidataLabels and
WikidataDescriptions): wraps the raw language-to-text dict and the owning
entity's id. -/
structure BaseWikidataLD where
  raw : List (String × String)
  entity_id : String
  deriving DecidableEq

/-- The loop body of _BaseWikidataLD.default: try each language of the
fallback chain in order against the raw dict; on exhaustion either raise
KeyError (raise_error true) or return (None, entity id). -/
def ldDefaultLoop (ld : BaseWikidataLD) :
    List String → Bool → Except WdqError (Option String × String)
  | [], raise_error =>
      if raise_error then .error .notFound else .ok (none, ld.entity_id)
  | lang :: rest, raise_error =>
      match List.lookup lang ld.raw with
      | some text => .ok (some lang, text)
      | none => ldDefaultLoop ld rest raise_error

/-- _BaseWikidataLD.default: a None fallback chain defaults to
["mul", "en"]. -/
def ldDefault (ld : BaseWikidataLD) (fallback_chain : Option (List String))
    (raise_error : Bool) : Except WdqError (Option String × String) :=
  ldDefaultLoop ld (fallback_chain.getD ["mul", "en"]) raise_error

/-- _BaseWikidataLD.__getitem__: default with chain [key, "mul", "en"] and
raise_error False; a None matched language becomes KeyError(key). -/
def ldGetitem (ld : BaseWikidataLD) (key : String) : Except WdqError String :=
  match ldDefault ld (some [key, "mul", "en"]) false with
  | .ok (some _, text) => .ok text
  | .ok (none, _) => .error .notFound
  | .error e => .error e

/-- models.py WikidataAliases: wraps the raw language-to-alias-list dict and
the owning entity's id.  The JSON stores each language's aliases as an array;
the accessors return Python sets, embedded as Finset String. -/
structure WikidataAliases where
  raw : List (String × List String)
  entity_id : String
  deriving DecidableEq

/-- The set self._raw.get(lang, set()) as a Finset. -/
def aliasesLangSet (a : WikidataAliases) (lang : String) : Finset String :=
  ((List.lookup lang a.raw).getD []).toFinset

/-- WikidataAliases.default: union of the per-language alias sets across the
fallback chain, which defaults to ["mul", "en"] when None. -/
def aliasesDefault (a : WikidataAliases) (fallback_chain : Option (List String)) :
    Finset String :=
  (fallback_chain.getD ["mul", "en"]).foldl (fun u lang => u ∪ aliasesLangSet a lang) ∅

/-- WikidataAliases.__getitem__: default with chain [key, "mul"]. -/
def aliasesGetitem (a : WikidataAliases) (key : String) : Finset String :=
  aliasesDefault a (some [key, "mul"])

/-- WikidataAliases.all: union across every language present. -/
def aliasesAll (a : WikidataAliases) : Finset String :=
  a.raw.foldl (fun u p => u ∪ p.2.toFinset) ∅

/-- C3: the fallback resolver tries the chain's languages in order and
returns the first present one with its text; the chain defaults to
[requested, "mul", "en"] inside __getitem__ and to ["mul", "en"] when called
with no chain; when nothing in the chain matches it raises KeyError if
raise_error is set and otherwise returns (None, the entity's own id). -/
theorem ld_default_fallback (ld : BaseWikidataLD) (key : String)
    (chain pre rest : List String) (lang text : String) (raise_error : Bool) :
    (ldDefault ld none raise_error = ldDefaultLoop ld ["mul", "en"] raise_error)
    ∧ (ldGetitem ld key =
        match ldDefaultLoop ld [key, "mul", "en"] false with
        | .ok (some _, t) => .ok t
        | .ok (none, _) => .error .notFound
        | .error e => .error e)
    ∧ (chain = pre ++ lang :: rest → (∀ l ∈ pre, List.lookup l ld.raw = none) →
        List.lookup lang ld.raw = some text →
        ldDefaultLoop ld chain raise_error = .ok (some lang, text))
    ∧ ((∀ l ∈ chain, List.lookup l ld.raw = none) →
        ldDefaultLoop ld chain true = .error .notFound
        ∧ ldDefaultLoop ld chain false = .ok (none, ld.entity_id)) := by
  refine ⟨rfl, rfl, ?_, ?_⟩
  · rintro rfl hpre hlang
    induction pre with
    | nil => simp [ldDefaultLoop, hlang]
    | cons p ps ih =>
        have hp := hpre p (by simp)
        simp only [List.cons_append, ldDefaultLoop, hp]
        exact ih fun l hl => hpre l (by simp [hl])
  · intro habs
    induction chain with
    | nil => exact ⟨rfl, rfl⟩
    | cons c cs ih =>
        have hc := habs c (by simp)
        have ihs := ih fun l hl => habs l (by simp [hl])
        simpa [ldDefaultLoop, hc] using ihs

/-- C3 witness: on the spec's entity {id:"Q1", labels:{en:"Universe",
mul:"Universum"}}, the chain from a "fr" lookup hits "mul" first; on an
entity with neither "mul" nor "en", raise_error true gives KeyError and
raise_error false gives (None, "Q1"). -/
theorem ld_default_fallback_witness :
    (ldDefaultLoop ⟨[("en", "Universe"), ("mul", "Universum")], "Q1"⟩
        ["fr", "mul", "en"] true = .ok (some "mul", "Universum"))
    ∧ (ldDefaultLoop ⟨[("de", "Universum")], "Q1"⟩ ["mul", "en"] true
        = .error .notFound)
    ∧ (ldDefaultLoop ⟨[("de", "Universum")], "Q1"⟩ ["mul", "en"] false
        = .ok (none, "Q1")) := by
  refine ⟨?_, ?_, ?_⟩
  · exact (ld_default_fallback ⟨[("en", "Universe"), ("mul", "Universum")], "Q1"⟩ ""
      ["fr", "mul", "en"] ["fr"] ["en"] "mul" "Universum" true).2.2.1 rfl
      (by decide) (by decide)
  · exact ((ld_default_fallback ⟨[("de", "Universum")], "Q1"⟩ "" ["mul", "en"]
      [] [] "" "" true).2.2.2 (by decide)).1
  · exact ((ld_default_fallback ⟨[("de", "Universum")], "Q1"⟩ "" ["mul", "en"]
      [] [] "" "" false).2.2.2 (by decide)).2

/-- C4: alias lookup for a language is exactly the union of that language's
stored set and the "mul" set — no "en" fallback — checked also on the spec's
example {mul:["Cosmos"], en:["The Universe"]}. -/
theorem aliases_getitem_union (a : WikidataAliases) (key : String) :
    aliasesGetitem a key = aliasesLangSet a key ∪ aliasesLangSet a "mul"
    ∧ aliasesGetitem ⟨[("mul", ["Cosmos"]), ("en", ["The Universe"])], "Q1"⟩ "en"
        = {"Cosmos", "The Universe"}
    ∧ aliasesGetitem ⟨[("mul", ["Cosmos"]), ("en", ["The Universe"])], "Q1"⟩ "fr"
        = {"Cosmos"} := by
  refine ⟨?_, by decide, by decide⟩
  simp [aliasesGetitem, aliasesDefault, List.foldl]

/-- C9: alias lookup is total — in particular, when neither the requested
language nor "mul" has an entry the result is the empty set, not an error
(the accessor's type is a plain Finset, so no exception can be raised). -/
theorem aliases_getitem_total (a : WikidataAliases) (key : String)
    (hk : List.lookup key a.raw = none) (hm : List.lookup "mul" a.raw = none) :
    aliasesGetitem a key = ∅ := by
  simp [aliasesGetitem, aliasesDefault, List.foldl, aliasesLangSet, hk, hm]

/-- C9 witness: a container holding only "en" aliases yields the empty set
for "fr". -/
theorem aliases_getitem_total_witness :
    aliasesGetitem ⟨[("en", ["The Universe"])], "Q1"⟩ "fr" = ∅ :=
  aliases_getitem_total ⟨[("en", ["The Universe"])], "Q1"⟩ "fr" (by decide) (by decide)

/-- models.py WikidataStatementRank: closed enumeration with values
"preferred", "normal", "deprecated". -/
inductive WikidataStatementRank where
  | PREFERRED
  | NORMAL
  | DEPRECATED
  deriving DecidableEq

/-- The Enum value lookup WikidataStatementRank(value): some member whose
value equals the string, else ValueError (None here). -/
def WikidataStatementRank.fromValue? (s : String) : Option WikidataStatementRank :=
  if s = "preferred" then some .PREFERRED
  else if s = "normal" then some .NORMAL
  else if s = "deprecated" then some .DEPRECATED
  else none

/-- Raw JSON of one statement, with the fields the accessors read: id, the
optional rank string, the property dict {id, data_type} and the value dict.
The value's JSON content is kept as a string stand-in. -/
structure RawStatement where
  id : String
  rank : Option String
  property : WikidataPropertyReference
  value : RawValue String
  deriving DecidableEq

/-- WikidataStatement.rank: WikidataStatementRank(self._raw.get("rank",
"normal")); an unrecognized rank string raises ValueError. -/
def statementRank (s : RawStatement) : Except WdqError WikidataStatementRank :=
  match WikidataStatementRank.fromValue? (s.rank.getD "normal") with
  | some r => .ok r
  | none => .error .malformedData

/-- models.py WikidataSitelinkBadge: the closed badge enumeration. -/
inductive WikidataSitelinkBadge where
  | GOOD_ARTICLE
  | FEATURED_ARTICLE_BADGE
  | RECOMMENDED_ARTICLE
  | FEATURED_LIST
  | FEATURED_PORTAL
  | NOT_PROOFREAD
  | PROBLEMATIC
  | PROOFREAD
  | VALIDATED
  | DIGITAL_DOCUMENT
  | GOOD_LIST
  | SITELINK_TO_REDIRECT
  | INTENTIONAL_SITELINK_TO_REDIRECT
  deriving DecidableEq

/-- The Enum value lookup WikidataSitelinkBadge(badge_id): some member whose
value equals the id, else ValueError (None here). -/
def WikidataSitelinkBadge.fromValue? (s : String) : Option WikidataSitelinkBadge :=
  if s = "Q17437798" then some .GOOD_ARTICLE
  else if s = "Q17437796" then some .FEATURED_ARTICLE_BADGE
  else if s = "Q17559452" then some .RECOMMENDED_ARTICLE
  else if s = "Q17506997" then some .FEATURED_LIST
  else if s = "Q17580674" then some .FEATURED_PORTAL
  else if s = "Q20748091" then some .NOT_PROOFREAD
  else if s = "Q20748094" then some .PROBLEMATIC
  else if s = "Q20748092" then some .PROOFREAD
  else if s = "Q20748093" then some .VALIDATED
  else if s = "Q28064618" then some .DIGITAL_DOCUMENT
  else if s = "Q51759403" then some .GOOD_LIST
  else if s = "Q70893996" then some .SITELINK_TO_REDIRECT
  else if s = "Q70894304" then some .INTENTIONAL_SITELINK_TO_REDIRECT
  else none

/-- Raw JSON of one sitelink: title, an optional badge-id array
(raw.get("badges", [])), and url. -/
structure RawSitelink where
  title : String
  badges : Option (List String)
  url : String
  deriving DecidableEq

/-- The list comprehension [WikidataSitelinkBadge(b) for b in
raw.get("badges", [])]: decodes left to right, the first unknown id raises. -/
def decodeBadges : List String → Except WdqError (List WikidataSitelinkBadge)
  | [] => .ok []
  | b :: rest =>
      match WikidataSitelinkBadge.fromValue? b with
      | none => .error .malformedData
      | some bb =>
          match decodeBadges rest with
          | .error e => .error e
          | .ok tl => .ok (bb :: tl)

/-- models.py WikidataSitelink dataclass. -/
structure WikidataSitelink where
  title : String
  badges : List WikidataSitelinkBadge
  url : String
  deriving DecidableEq

/-- WikidataSitelink.from_raw: reads title and url and decodes every badge id
against the closed enumeration at construction. -/
def WikidataSitelink.from_raw (r : RawSitelink) : Except WdqError WikidataSitelink :=
  match decodeBadges (r.badges.getD []) with
  | .error e => .error e
  | .ok bs => .ok ⟨r.title, bs, r.url⟩

/-- models.py make_sitelinks: the dict comprehension {site:
WikidataSitelink.from_raw(data) ...} eagerly constructs every sitelink (the
wrapping WikidataSitelinks object only adds repr, so the registry is embedded
as the decoded association list). -/
def make_sitelinks : List (String × RawSitelink) →
    Except WdqError (List (String × WikidataSitelink))
  | [] => .ok []
  | (site, data) :: rest =>
      match WikidataSitelink.from_raw data with
      | .error e => .error e
      | .ok sl =>
          match make_sitelinks rest with
          | .error e => .error e
          | .ok tl => .ok ((site, sl) :: tl)

/-- WikidataSitelinks.__getitem__: self._raw[key], KeyError when absent. -/
def sitelinksGetitem (sls : List (String × WikidataSitelink)) (key : String) :
    Except WdqError WikidataSitelink :=
  match List.lookup key sls with
  | some sl => .ok sl
  | none => .error .notFound

/-- Raw JSON of an entity record, with the subtrees the accessors slice out.
Each accessor uses raw.get(field, {}) so an absent subtree and an empty one
are indistinguishable; both are embedded as the empty list. -/
structure RawEntity where
  id : String
  labels : List (String × String)
  descriptions : List (String × String)
  aliases : List (String × List String)
  sitelinks : List (String × RawSitelink)
  statements : List (String × List RawStatement)
  deriving DecidableEq

/-- A constructed item object: __init__ only stores the raw JSON, with no
validation of any field. -/
structure WikidataItemObj where
  _raw : RawEntity
  deriving DecidableEq

/-- WikidataItem(data): construction always succeeds, whatever the payload. -/
def wikidataItemInit (data : RawEntity) : WikidataItemObj := ⟨data⟩

/-- The sitelinks accessor: make_sitelinks(self._raw.get("sitelinks", {}),
self.id), run at access time. -/
def WikidataItemObj.sitelinksAccessor (it : WikidataItemObj) :
    Except WdqError (List (String × WikidataSitelink)) :=
  make_sitelinks it._raw.sitelinks

/-- Fetching one sitelink's title through the registry: accesses the
registry and that sitelink, but never any badge list. -/
def itemSitelinkTitle (it : WikidataItemObj) (site : String) : Except WdqError String :=
  match it.sitelinksAccessor with
  | .error e => .error e
  | .ok sls =>
      match sitelinksGetitem sls site with
      | .error e => .error e
      | .ok sl => .ok sl.title

/-- Badge decoding succeeds exactly when every id is in the closed
enumeration. -/
theorem decodeBadges_ok_iff (l : List String) :
    (∃ bs, decodeBadges l = .ok bs) ↔
      ∀ b ∈ l, (WikidataSitelinkBadge.fromValue? b).isSome = true := by
  induction l with
  | nil => simp [decodeBadges]
  | cons b rest ih =>
      cases hb : WikidataSitelinkBadge.fromValue? b with
      | none => simp [decodeBadges, hb]
      | some bb =>
          cases hr : decodeBadges rest with
          | error e =>
              constructor
              · rintro ⟨bs, hbs⟩
                simp [decodeBadges, hb, hr] at hbs
              · intro h
                have := ih.mpr fun b' hb' => h b' (by simp [hb'])
                simp [hr] at this
          | ok tl =>
              constructor
              · intro _ b' hb'
                rcases List.mem_cons.mp hb' with h1 | h2
                · subst h1; simp [hb]
                · exact ih.mp ⟨tl, hr⟩ b' h2
              · intro _
                exact ⟨bb :: tl, by simp [decodeBadges, hb, hr]⟩

/-- Sitelink construction succeeds exactly when every badge id of that
sitelink decodes. -/
theorem from_raw_ok_iff (r : RawSitelink) :
    (∃ sl, WikidataSitelink.from_raw r = .ok sl) ↔
      ∀ b ∈ r.badges.getD [], (WikidataSitelinkBadge.fromValue? b).isSome = true := by
  rw [← decodeBadges_ok_iff]
  cases h : decodeBadges (r.badges.getD []) with
  | error e => simp [WikidataSitelink.from_raw, h]
  | ok bs => simp [WikidataSitelink.from_raw, h]

/-- The registry construction succeeds exactly when every badge id of every
sitelink decodes. -/
theorem make_sitelinks_ok_iff (raws : List (String × RawSitelink)) :
    (∃ sls, make_sitelinks raws = .ok sls) ↔
      ∀ p ∈ raws, ∀ b ∈ p.2.badges.getD [],
        (WikidataSitelinkBadge.fromValue? b).isSome = true := by
  induction raws with
  | nil => simp [make_sitelinks]
  | cons p rest ih =>
      obtain ⟨site, data⟩ := p
      cases hf : WikidataSitelink.from_raw data with
      | error e =>
          have hnot : ¬ ∀ b ∈ data.badges.getD [],
              (WikidataSitelinkBadge.fromValue? b).isSome = true := by
            intro hall
            rcases (from_raw_ok_iff data).mpr hall with ⟨sl, hsl⟩
            rw [hf] at hsl
            simp at hsl
          constructor
          · rintro ⟨sls, hsls⟩
            simp [make_sitelinks, hf] at hsls
          · intro h
            exact absurd (fun b hb => h (site, data) (by simp) b hb) hnot
      | ok sl =>
          cases hr : make_sitelinks rest with
          | error e =>
              constructor
              · rintro ⟨sls, hsls⟩
                simp [make_sitelinks, hf, hr] at hsls
              · intro h
                have := ih.mpr fun q hq => h q (by simp [hq])
                simp [hr] at this
          | ok tl =>
              constructor
              · intro _ q hq
                rcases List.mem_cons.mp hq with h1 | h2
                · subst h1
                  exact (from_raw_ok_iff data).mp ⟨sl, hf⟩
                · exact ih.mp ⟨tl, hr⟩ q h2
              · intro _
                exact ⟨(site, sl) :: tl, by simp [make_sitelinks, hf, hr]⟩

/-- An entity whose "enwiki" sitelink carries the unknown badge id "Q999"
beside a well-formed "dewiki" sitelink. -/
def entityWithBadBadge : RawEntity where
  id := "Q1"
  labels := []
  descriptions := []
  aliases := []
  sitelinks :=
    [("dewiki", ⟨"Universum", some ["Q17437798"], "https://de.wikipedia.org/wiki/Universum"⟩),
     ("enwiki", ⟨"Universe", some ["Q999"], "https://en.wikipedia.org/wiki/Universe"⟩)]
  statements := []

/-- C6 counterexample: with an unknown badge id on the "enwiki" sitelink,
entity construction still succeeds, but reading the title of the well-formed
"dewiki" sitelink — an access that never touches the bad badge list — already
raises MalformedData, because the registry accessor decodes every sitelink's
badges eagerly.  So the error is not raised "only at the point that
sitelink's badge list is accessed". -/
theorem sitelink_bad_badge_errors_without_badge_access :
    wikidataItemInit entityWithBadBadge = ⟨entityWithBadBadge⟩
    ∧ itemSitelinkTitle (wikidataItemInit entityWithBadBadge) "dewiki"
        = .error .malformedData := by
  constructor
  · rfl
  · rfl

/-- C6 (amended): constructing the entity succeeds with no validation, and
MalformedData for an out-of-enumeration badge id is raised when the sitelinks
registry accessor is invoked — it eagerly decodes every sitelink's badges, so
any access through the registry fails, not only access to that sitelink's
badge list. -/
theorem sitelink_badge_error_at_registry_access (data : RawEntity) :
    (wikidataItemInit data)._raw = data
    ∧ ((∃ sls, (wikidataItemInit data).sitelinksAccessor = .ok sls) ↔
        ∀ p ∈ data.sitelinks, ∀ b ∈ p.2.badges.getD [],
          (WikidataSitelinkBadge.fromValue? b).isSome = true) :=
  ⟨rfl, make_sitelinks_ok_iff data.sitelinks⟩

/-- models.py WikidataStatements: wraps the raw property-id-to-statement-list
dict and the owning entity's id. -/
structure WikidataStatements where
  raw : List (String × List RawStatement)
  qid : String
  deriving DecidableEq

/-- The comprehension of _filter_by_rank on an actual rank list: evaluates
each statement's rank left to right (an unrecognized rank string raises) and
keeps, in order, the statements whose rank is in the list. -/
def filterByRankSome : List RawStatement → List WikidataStatementRank →
    Except WdqError (List RawStatement)
  | [], _ => .ok []
  | s :: rest, rs =>
      match statementRank s with
      | .error e => .error e
      | .ok r =>
          match filterByRankSome rest rs with
          | .error e => .error e
          | .ok tl => .ok (if r ∈ rs then s :: tl else tl)

/-- WikidataStatements._filter_by_rank: a None rank list short-circuits the
condition, so no rank is ever evaluated and nothing is filtered. -/
def _filter_by_rank (sts : List RawStatement) :
    Option (List WikidataStatementRank) → Except WdqError (List RawStatement)
  | none => .ok sts
  | some rs => filterByRankSome sts rs

/-- WikidataStatements.property: self._raw.get(property_id, []) filtered by
rank. -/
def statementsProperty (c : WikidataStatements) (property_id : String)
    (ranks : Option (List WikidataStatementRank)) : Except WdqError (List RawStatement) :=
  _filter_by_rank ((List.lookup property_id c.raw).getD []) ranks

/-- WikidataStatements.all: concatenation of the per-property lists in the
dict's iteration order, filtered by rank. -/
def statementsAll (c : WikidataStatements)
    (ranks : Option (List WikidataStatementRank)) : Except WdqError (List RawStatement) :=
  _filter_by_rank (c.raw.map Prod.snd).flatten ranks

/-- WikidataStatements.__len__: sum of the per-property list lengths. -/
def statementsLen (c : WikidataStatements) : Nat :=
  (c.raw.map (fun p => p.2.length)).sum

/-- With unique keys, summing a lookup-based length over the keys recovers
the per-entry lengths. -/
theorem statements_lookup_sum (raw : List (String × List RawStatement))
    (h : (raw.map Prod.fst).Nodup) :
    ((raw.map Prod.fst).map (fun q => ((List.lookup q raw).getD []).length)).sum
      = (raw.map (fun p => p.2.length)).sum := by
  induction raw with
  | nil => rfl
  | cons p rest ih =>
      obtain ⟨k, v⟩ := p
      simp only [List.map_cons, List.nodup_cons] at h
      obtain ⟨hk, hres⟩ := h
      have h1 : List.lookup k ((k, v) :: rest) = some v := by
        simp [List.lookup]
      have h2 : (rest.map Prod.fst).map
            (fun q => ((List.lookup q ((k, v) :: rest)).getD []).length)
          = (rest.map Prod.fst).map
            (fun q => ((List.lookup q rest).getD []).length) := by
        refine List.map_congr_left fun q hq => ?_
        have hne : q ≠ k := fun hkq => hk (hkq ▸ hq)
        simp [List.lookup, beq_eq_false_iff_ne.mpr hne]
      simp only [List.map_cons, List.sum_cons, h1, h2, Option.getD_some, ih hres]

/-- When every rank in the group parses, the rank-filtered accessor is the
plain order-preserving filter. -/
theorem filterByRankSome_eq_filter (sts : List RawStatement)
    (rs : List WikidataStatementRank)
    (h : ∀ s ∈ sts, (statementRank s).isOk = true) :
    filterByRankSome sts rs = .ok (sts.filter fun s =>
      match statementRank s with
      | .ok r => rs.contains r
      | .error _ => false) := by
  induction sts with
  | nil => rfl
  | cons s rest ih =>
      have hs := h s (by simp)
      cases hr : statementRank s with
      | error e =>
          rw [hr] at hs
          exact absurd hs (by simp [Except.isOk, Except.toBool])
      | ok r =>
          have ihs := ih fun s' hs' => h s' (by simp [hs'])
          rw [List.filter_cons]
          by_cases hmem : r ∈ rs
          · have hc : rs.contains r = true := List.elem_eq_true_of_mem hmem
            simp only [filterByRankSome, hr, ihs, if_pos hmem, hc, if_true]
          · have hc : rs.contains r = false := by simpa using hmem
            simp only [filterByRankSome, hr, ihs, if_neg hmem, hc,
              Bool.false_eq_true, if_false]

/-- C7: the collection's length equals the length of all() with no rank
filter, and equals the sum over the present property ids of the lengths
returned by the unfiltered per-property accessor; the rank-filtered
per-property accessor returns exactly that property's statements whose rank
lies in the filter, in source order. -/
theorem statements_length_and_rank_filter (c : WikidataStatements) (pid : String)
    (rs : List WikidataStatementRank)
    (hnd : (c.raw.map Prod.fst).Nodup)
    (hv : ∀ s ∈ (List.lookup pid c.raw).getD [], (statementRank s).isOk = true) :
    statementsAll c none = .ok (c.raw.map Prod.snd).flatten
    ∧ statementsLen c = (c.raw.map Prod.snd).flatten.length
    ∧ statementsLen c
        = ((c.raw.map Prod.fst).map
            (fun q => ((List.lookup q c.raw).getD []).length)).sum
    ∧ statementsProperty c pid none = .ok ((List.lookup pid c.raw).getD [])
    ∧ statementsProperty c pid (some rs)
        = .ok (((List.lookup pid c.raw).getD []).filter fun s =>
            match statementRank s with
            | .ok r => rs.contains r
            | .error _ => false) := by
  refine ⟨rfl, ?_, ?_, rfl, ?_⟩
  · rw [List.length_flatten, List.map_map]
    rfl
  · exact (statements_lookup_sum c.raw hnd).symm
  · exact filterByRankSome_eq_filter _ rs hv

/-- C7 witness: a concrete two-property collection; filtering P31 to
preferred keeps exactly its preferred statement. -/
theorem statements_length_and_rank_filter_witness :
    ((([("P31", [⟨"s1", some "preferred", ⟨"P31", "wikibase-item"⟩, ⟨"value", "Q5"⟩⟩,
                 ⟨"s2", none, ⟨"P31", "wikibase-item"⟩, ⟨"value", "Q6"⟩⟩]),
        ("P21", [⟨"s3", some "deprecated", ⟨"P21", "wikibase-item"⟩, ⟨"value", "Q7"⟩⟩])]
         : List (String × List RawStatement)).map Prod.fst).Nodup)
    ∧ statementsProperty
        ⟨[("P31", [⟨"s1", some "preferred", ⟨"P31", "wikibase-item"⟩, ⟨"value", "Q5"⟩⟩,
                   ⟨"s2", none, ⟨"P31", "wikibase-item"⟩, ⟨"value", "Q6"⟩⟩]),
          ("P21", [⟨"s3", some "deprecated", ⟨"P21", "wikibase-item"⟩, ⟨"value", "Q7"⟩⟩])], "Q1"⟩
        "P31" (some [.PREFERRED])
        = .ok [⟨"s1", some "preferred", ⟨"P31", "wikibase-item"⟩, ⟨"value", "Q5"⟩⟩] := by
  constructor
  · decide
  · have hth := statements_length_and_rank_filter
      ⟨[("P31", [⟨"s1", some "preferred", ⟨"P31", "wikibase-item"⟩, ⟨"value", "Q5"⟩⟩,
                 ⟨"s2", none, ⟨"P31", "wikibase-item"⟩, ⟨"value", "Q6"⟩⟩]),
        ("P21", [⟨"s3", some "deprecated", ⟨"P21", "wikibase-item"⟩, ⟨"value", "Q7"⟩⟩])], "Q1"⟩
      "P31" [.PREFERRED] (by decide) (by decide)
    rw [hth.2.2.2.2]
    rfl

/-- C8 counterexample: on a collection holding only P10, asking for the
absent P31 returns the empty list instead of failing with NotFound, because
the accessor reads self._raw.get(property_id, []). -/
theorem statements_property_missing_counterexample :
    statementsProperty
      ⟨[("P10", [⟨"s1", none, ⟨"P10", "string"⟩, ⟨"value", "x"⟩⟩])], "Q1"⟩
      "P31" none = .ok [] := rfl

/-- C8 (amended): for a property id with no entry, byProperty returns the
empty list under every rank filter; it never raises NotFound. -/
theorem statements_property_missing_returns_empty (c : WikidataStatements)
    (pid : String) (ranks : Option (List WikidataStatementRank))
    (h : List.lookup pid c.raw = none) :
    statementsProperty c pid ranks = .ok [] := by
  cases ranks with
  | none => simp [statementsProperty, h, _filter_by_rank]
  | some rs => simp [statementsProperty, h, _filter_by_rank, filterByRankSome]

/-- C8 witness: the empty collection has no entry for P31 and returns the
empty list for it. -/
theorem statements_property_missing_returns_empty_witness :
    List.lookup "P31" (⟨[], "Q1"⟩ : WikidataStatements).raw = none
    ∧ statementsProperty ⟨[], "Q1"⟩ "P31" (some [.PREFERRED]) = .ok [] :=
  ⟨rfl, statements_property_missing_returns_empty ⟨[], "Q1"⟩ "P31"
    (some [.PREFERRED]) rfl⟩

/-- C10: a rank string outside {"preferred", "normal", "deprecated"} makes
the rank accessor raise; the default of normal applies exactly when the rank
field is absent, never as a substitute for an unrecognized string. -/
theorem statement_rank_unknown_errors (s : RawStatement) (str : String) :
    (s.rank = some str → str ∉ ["preferred", "normal", "deprecated"] →
      statementRank s = .error .malformedData)
    ∧ (s.rank = none → statementRank s = .ok .NORMAL) := by
  constructor
  · intro h1 h2
    simp only [List.mem_cons, List.mem_singleton, not_or] at h2
    obtain ⟨n1, ⟨n2, n3⟩⟩ := h2
    simp [statementRank, h1, WikidataStatementRank.fromValue?, n1, n2, n3]
  · intro h
    simp [statementRank, h, WikidataStatementRank.fromValue?]

/-- C10 witness: rank "bogus" raises, an absent rank field defaults to
normal. -/
theorem statement_rank_unknown_errors_witness :
    statementRank ⟨"s1", some "bogus", ⟨"P10", "string"⟩, ⟨"value", "x"⟩⟩
        = .error .malformedData
    ∧ statementRank ⟨"s2", none, ⟨"P10", "string"⟩, ⟨"value", "x"⟩⟩
        = .ok .NORMAL :=
  ⟨(statement_rank_unknown_errors
      ⟨"s1", some "bogus", ⟨"P10", "string"⟩, ⟨"value", "x"⟩⟩ "bogus").1 rfl
      (by decide),
   (statement_rank_unknown_errors
      ⟨"s2", none, ⟨"P10", "string"⟩, ⟨"value", "x"⟩⟩ "bogus").2 rfl⟩

/-- The names the package root module (src/src/wdq, its dunder-init file)
binds at top level, i.e. the names a "from wdq import ..." can resolve
(there is also no submodule of that name for any name outside this list
among the ones the code imports). -/
def wdqPackageExports : List String :=
  ["ABC", "abstractmethod", "Any", "httpx", "WikidataAliases",
   "WikidataDescriptions", "WikidataLabels", "WikidataSitelinks",
   "make_sitelinks", "WIKIDATA_REST_API_URL", "_fetch_item",
   "WikidataEntity", "WikidataItem", "item"]

/-- The property names the WikidataItem class of the package root module
defines, including the id property inherited from its WikidataEntity base:
this is the object the public item(qid) entry point returns. -/
def initWikidataItemProps : List String :=
  ["id", "labels", "descriptions", "aliases", "sitelinks"]

/-- The property names of models.py WikidataItem: the WikidataEntity
accessors plus sitelinks.  This class is not what the public entry point
returns. -/
def modelsWikidataItemProps : List String :=
  ["id", "labels", "descriptions", "aliases", "statements", "sitelinks"]

/-- Python attribute lookup on an instance whose class defines exactly the
given properties: found, or AttributeError. -/
def pyHasAttr (props : List String) (name : String) : Bool :=
  props.contains name

/-- C5: the object returned by the public item(qid) entry point offers id,
labels, descriptions, aliases and sitelinks but NOT statements — the
WikidataItem class in the package root module omits the statements accessor
that models.py WikidataItem has, so the repository's own t.py call
item("Q882").statements raises AttributeError. -/
theorem item_entry_point_lacks_statements :
    pyHasAttr initWikidataItemProps "statements" = false
    ∧ pyHasAttr initWikidataItemProps "id" = true
    ∧ pyHasAttr initWikidataItemProps "labels" = true
    ∧ pyHasAttr initWikidataItemProps "descriptions" = true
    ∧ pyHasAttr initWikidataItemProps "aliases" = true
    ∧ pyHasAttr initWikidataItemProps "sitelinks" = true
    ∧ pyHasAttr modelsWikidataItemProps "statements" = true := by
  decide

/-- The transport collaborator: the HTTP fetch of an item's JSON by id;
a failure is a transport error. -/
structure WikidataTransport where
  fetch_item : String → Except WdqError RawEntity

/-- The public item(qid) entry point of the package root module: one
transport fetch keyed by qid, whose JSON is wrapped in a WikidataItem with
no further processing; a fetch failure propagates unchanged.  The first
component records the fetch keys issued, in order. -/
def wdqItem (t : WikidataTransport) (qid : String) :
    List String × Except WdqError WikidataItemObj :=
  match t.fetch_item qid with
  | .ok data => ([qid], .ok (wikidataItemInit data))
  | .error e => ([qid], .error e)

/-- WikidataItemValue.resolve: "from wdq import item as fetch_item" (a name
the package root module does bind), then fetch_item(self.id). -/
def wikidataItemValueResolve (t : WikidataTransport) (value_id : String) :
    List String × Except WdqError WikidataItemObj :=
  if wdqPackageExports.contains "item" then wdqItem t value_id
  else ([], .error .importError)

/-- WikidataPropertyReference.resolve: "from wdq import property as
fetch_property".  The package root module binds no name "property" and has
no submodule of that name, so the import itself raises ImportError before
any fetch can happen; the branch that would fetch is unreachable. -/
def wikidataPropertyReferenceResolve (t : WikidataTransport) (prop_id : String) :
    List String × Except WdqError WikidataItemObj :=
  if wdqPackageExports.contains "property" then wdqItem t prop_id
  else ([], .error .importError)

/-- A transport that always succeeds with an empty record. -/
def okTransport : WikidataTransport where
  fetch_item := fun _ => .ok ⟨"Q0", [], [], [], [], []⟩

/-- A transport that always fails. -/
def failTransport : WikidataTransport where
  fetch_item := fun _ => .error .transportError

/-- C2: on an item value, each resolve() call performs exactly one fetch
keyed by the held id (two calls, two fetches — no caching) and a transport
failure propagates unchanged; but on a property reference, resolve() raises
ImportError with zero fetches, because "from wdq import property" names a
binding the package root module does not have. -/
theorem item_resolve_fetches_property_resolve_import_error :
    wikidataItemValueResolve okTransport "Q5"
        = (["Q5"], .ok (wikidataItemInit ⟨"Q0", [], [], [], [], []⟩))
    ∧ ((wikidataItemValueResolve okTransport "Q5").1
          ++ (wikidataItemValueResolve okTransport "Q5").1 = ["Q5", "Q5"])
    ∧ wikidataItemValueResolve failTransport "Q5" = (["Q5"], .error .transportError)
    ∧ wikidataPropertyReferenceResolve okTransport "P31" = ([], .error .importError) := by
  refine ⟨rfl, rfl, rfl, ?_⟩
  have h : ¬ ("property" ∈ wdqPackageExports) := by decide
  simp [wikidataPropertyReferenceResolve, h]
